import Mathlib

/-!
# Verification of the mitimidi-relay core (src/main.c)

Shallow embedding of the relay state engine, the MIDI message dispatch and
the main polling loop of `src/main.c`.  The relay state array
`relay_states[4]` is modelled as a `List Bool` of length 4; GPIO writes,
`printf` logging and the USB/Bluetooth stacks are external collaborators and
are not part of the state model.
-/

namespace MitimidiRelay

/-- The four-slot relay state array `relay_states` (src/main.c line 51). -/
abbrev RelayStates := List Bool

/-- Startup state: all relays off (src/main.c line 51). -/
def initial_relay_states : RelayStates := [false, false, false, false]

/-- Model of `set_relay` (src/main.c lines 85-100): ids outside 1..4 are rejected by
the guard `if (relay_num < 1 || relay_num > 4) return;`, otherwise slot
`relay_num - 1` of the state array is written.  The accompanying
`gpio_put` and `printf` calls are external effects, not modelled. -/
def set_relay (relay_num : Int) (state : Bool) (s : RelayStates) : RelayStates :=
  if relay_num < 1 ∨ relay_num > 4 then s
  else s.set (relay_num - 1).toNat state

/-- One line of console output emitted by `set_relay`: either the
`Relay %d: %s` line (src/main.c line 98) or the relay-states dump of
`print_relay_states` (src/main.c lines 181-188). -/
inductive LogEvent where
  | relay_line (relay_num : Int) (state : Bool)
  | states_line (states : RelayStates)

/-- Model of `set_relay` (src/main.c lines 85-100) together with its console
output: the guard `if (relay_num < 1 || relay_num > 4) return;` at line 87
exits before any `printf`, so an out-of-range call produces no log line at
all; an in-range call writes the slot and then prints the `Relay %d: %s`
line followed by the `print_relay_states` dump. -/
def set_relay_traced (relay_num : Int) (state : Bool) (s : RelayStates) :
    RelayStates × List LogEvent :=
  if relay_num < 1 ∨ relay_num > 4 then (s, [])
  else
    let s2 := s.set (relay_num - 1).toNat state
    (s2, [LogEvent.relay_line relay_num state, LogEvent.states_line s2])

/-- The fixed note-to-relay switch used by the NoteOn and NoteOff branches of
`process_midi_message` (src/main.c lines 115-123, 127-132, 138-143):
RELAY_1_NOTE 60 maps to relay 1, 61 to 2, 62 to 3, 63 to 4; any other note
falls through the switch with no relay id. -/
def note_to_relay (data1 : Nat) : Option Int :=
  if data1 = 60 then some 1
  else if data1 = 61 then some 2
  else if data1 = 62 then some 3
  else if data1 = 63 then some 4
  else none

/-- One of the three identical `switch (data1)` blocks of
`process_midi_message`: `set_relay` on the mapped relay with value `b`
(NoteOn uses `b = true`, the velocity-0 NoteOn and NoteOff blocks
`b = false`), no state change for an unmapped note. -/
def note_switch (data1 : Nat) (b : Bool) (s : RelayStates) : RelayStates :=
  match note_to_relay data1 with
  | some id => set_relay id b s
  | none => s

/-- Model of `process_midi_message` (src/main.c lines 103-178), restricted to its
effect on the relay state array.  `msg_type = status & 0xF0` selects the
branch: 0x90 NoteOn (velocity 0 treated as NoteOff), 0x80 NoteOff,
0xB0 ControlChange, 0xC0 ProgramChange, default Unknown.  The channel
`status & 0x0F`, the `from_bluetooth` source flag and all `printf` calls
feed only the log and have no state effect. -/
def process_midi_message (status data1 data2 : Nat) (from_bluetooth : Bool)
    (s : RelayStates) : RelayStates :=
  let msg_type := status &&& 0xF0
  if msg_type = 0x90 then
    if data2 > 0 then note_switch data1 true s
    else note_switch data1 false s
  else if msg_type = 0x80 then
    note_switch data1 false s
  else if msg_type = 0xB0 then
    if 1 ≤ data1 ∧ data1 ≤ 4 then set_relay (data1 : Int) (decide (data2 ≥ 64)) s
    else s
  else if msg_type = 0xC0 then
    if data1 ≤ 3 then
      set_relay ((data1 : Int) + 1) true
        (set_relay 4 false (set_relay 3 false (set_relay 2 false (set_relay 1 false s))))
    else
      set_relay 4 false (set_relay 3 false (set_relay 2 false (set_relay 1 false s)))
  else s

/-- The `set_relay` call issued by one note-switch block, if any. -/
def note_switch_calls (data1 : Nat) (b : Bool) : List (Int × Bool) :=
  match note_to_relay data1 with
  | some id => [(id, b)]
  | none => []

/-- The sequence of `set_relay` calls issued by `process_midi_message`
(src/main.c lines 103-178), in source order, as `(id, state)` pairs. -/
def midi_setrelay_calls (status data1 data2 : Nat) : List (Int × Bool) :=
  let msg_type := status &&& 0xF0
  if msg_type = 0x90 then
    if data2 > 0 then note_switch_calls data1 true
    else note_switch_calls data1 false
  else if msg_type = 0x80 then
    note_switch_calls data1 false
  else if msg_type = 0xB0 then
    if 1 ≤ data1 ∧ data1 ≤ 4 then [((data1 : Int), decide (data2 ≥ 64))]
    else []
  else if msg_type = 0xC0 then
    if data1 ≤ 3 then
      [(1, false), (2, false), (3, false), (4, false), ((data1 : Int) + 1, true)]
    else
      [(1, false), (2, false), (3, false), (4, false)]
  else []

/-- Run a sequence of `set_relay` calls in order. -/
def run_calls (calls : List (Int × Bool)) (s : RelayStates) : RelayStates :=
  calls.foldl (fun t c => set_relay c.1 c.2 t) s

/-- Consistency: `process_midi_message` is exactly the sequential execution of the
`set_relay` calls it issues. -/
theorem process_eq_run_calls (status data1 data2 : Nat) (fb : Bool) (s : RelayStates) :
    process_midi_message status data1 data2 fb s =
      run_calls (midi_setrelay_calls status data1 data2) s := by
  simp only [process_midi_message, midi_setrelay_calls, run_calls,
    note_switch, note_switch_calls]
  split_ifs <;> cases hnt : note_to_relay data1 <;> simp [hnt]

/-- A length-4 list is a 4-tuple. -/
theorem relayStates_cases (s : RelayStates) (h : s.length = 4) :
    ∃ a b c d, s = [a, b, c, d] := by
  cases s with
  | nil => simp at h
  | cons a s =>
    cases s with
    | nil => simp at h
    | cons b s =>
      cases s with
      | nil => simp at h
      | cons c s =>
        cases s with
        | nil => simp at h
        | cons d s =>
          cases s with
          | nil => exact ⟨a, b, c, d, rfl⟩
          | cons e s => simp at h

/-- Consistency: the state component of the traced model is `set_relay`. -/
theorem set_relay_traced_fst (id : Int) (st : Bool) (s : RelayStates) :
    (set_relay_traced id st s).1 = set_relay id st s := by
  unfold set_relay_traced set_relay
  split <;> rfl

/-- C4 counterexample: the claim says an out-of-range `setRelay` logs a
diagnostic, but `set_relay(0, true)` returns at the guard (src/main.c line
87) before reaching any `printf`: the state is unchanged and the log output
is empty — no diagnostic is logged. -/
theorem setRelay_out_of_range_no_log :
    set_relay_traced 0 true [false, false, false, false] =
      ([false, false, false, false], []) := rfl

/-- C4 (amended): for every id outside 1..4 (in particular 0 and 5) and every
on-value, `set_relay` is total and is silently ignored: it does not panic or
raise, the relay state array is unchanged, and no error is surfaced to the
caller — but nothing is logged either, the guard returns before any
`printf`. -/
theorem setRelay_out_of_range_silent (id : Int) (st : Bool) (s : RelayStates)
    (h : id < 1 ∨ id > 4) :
    set_relay id st s = s ∧ set_relay_traced id st s = (s, []) ∧
    set_relay 0 st s = s ∧ set_relay 5 st s = s := by
  refine ⟨?_, ?_, ?_, ?_⟩
  · simp [set_relay, h]
  · simp [set_relay_traced, h]
  · simp [set_relay]
  · simp [set_relay]

/-- C4 witness. -/
theorem setRelay_out_of_range_silent_witness :
    set_relay (-3) true [true, false, true, false] = [true, false, true, false] :=
  (setRelay_out_of_range_silent (-3) true [true, false, true, false] (by decide)).1

/-- An in-range `set_relay` writes `st` into slot `id - 1`. -/
theorem set_relay_get_self (id : Int) (st : Bool) (s : RelayStates)
    (h1 : 1 ≤ id) (h2 : id ≤ 4) (hlen : s.length = 4) :
    (set_relay id st s).get? (id - 1).toNat = some st := by
  obtain ⟨a, b, c, d, rfl⟩ := relayStates_cases s hlen
  interval_cases id <;> rfl

/-- An in-range `set_relay` leaves every slot other than `id - 1` unchanged. -/
theorem set_relay_get_other (id : Int) (st : Bool) (s : RelayStates)
    (h1 : 1 ≤ id) (h2 : id ≤ 4) (hlen : s.length = 4)
    (j : Nat) (hj : j ≠ (id - 1).toNat) :
    (set_relay id st s).get? j = s.get? j := by
  obtain ⟨a, b, c, d, rfl⟩ := relayStates_cases s hlen
  interval_cases id <;>
    · simp only [set_relay]
      norm_num
      match j, hj with
      | 0, hj => first | rfl | simp at hj
      | 1, hj => first | rfl | simp at hj
      | 2, hj => first | rfl | simp at hj
      | 3, hj => first | rfl | simp at hj
      | (n + 4), hj => rfl

/-- Fact: `set_relay` preserves the length of the state array. -/
theorem set_relay_length (id : Int) (st : Bool) (s : RelayStates) :
    (set_relay id st s).length = s.length := by
  unfold set_relay
  split
  · rfl
  · exact List.length_set s _ _

/-- C5: for every id in 1..4, every on-value and every prior 4-slot state,
after `set_relay id st` the observable state at index `id-1` is `st`. -/
theorem setRelay_sets_slot (id : Int) (st : Bool) (s : RelayStates)
    (h1 : 1 ≤ id) (h2 : id ≤ 4) (hlen : s.length = 4) :
    (set_relay id st s).get? (id - 1).toNat = some st :=
  set_relay_get_self id st s h1 h2 hlen

/-- C5 witness. -/
theorem setRelay_sets_slot_witness :
    (set_relay 3 true [false, false, false, false]).get? 2 = some true :=
  setRelay_sets_slot 3 true [false, false, false, false] (by decide) (by decide) (by decide)

/-- C10: for every id in 1..4, every on-value and every prior 4-slot state,
`set_relay id st` changes only slot `id-1`; every other index of the state
array keeps its previous value. -/
theorem setRelay_frame (id : Int) (st : Bool) (s : RelayStates)
    (h1 : 1 ≤ id) (h2 : id ≤ 4) (hlen : s.length = 4)
    (j : Nat) (hj : j ≠ (id - 1).toNat) :
    (set_relay id st s).get? j = s.get? j :=
  set_relay_get_other id st s h1 h2 hlen j hj

/-- C10 witness. -/
theorem setRelay_frame_witness :
    (set_relay 2 true [true, false, true, false]).get? 0 = some true :=
  setRelay_frame 2 true [true, false, true, false] (by decide) (by decide) (by decide)
    0 (by decide)

/-- C6: relay effects depend neither on the source transport nor on the MIDI
channel: two messages with the same status high nibble, `data1` and `data2`,
but any channels (low status nibble) and any from-Bluetooth flags, produce
identical relay states from the same prior state. -/
theorem process_source_channel_independent (status1 status2 data1 data2 : Nat)
    (fb1 fb2 : Bool) (s : RelayStates)
    (h : status1 &&& 0xF0 = status2 &&& 0xF0) :
    process_midi_message status1 data1 data2 fb1 s =
      process_midi_message status2 data1 data2 fb2 s := by
  unfold process_midi_message
  rw [h]

/-- C6 witness: channel 3 over Bluetooth versus channel 0 over USB. -/
theorem process_source_channel_independent_witness :
    process_midi_message 0x93 60 100 true [false, false, false, false] =
      process_midi_message 0x90 60 100 false [false, false, false, false] :=
  process_source_channel_independent 0x93 0x90 60 100 true false
    [false, false, false, false] (by decide)

/-- C7: processing is total — every byte triple produces some resulting state —
and a status byte whose high nibble is none of 0x8, 0x9, 0xB, 0xC falls into
the default (Unknown) branch, which leaves all four relay states unchanged. -/
theorem process_total_unknown_noop (status data1 data2 : Nat) (fb : Bool)
    (s : RelayStates) :
    (∃ s2, process_midi_message status data1 data2 fb s = s2) ∧
    (status &&& 0xF0 ≠ 0x90 → status &&& 0xF0 ≠ 0x80 → status &&& 0xF0 ≠ 0xB0 →
      status &&& 0xF0 ≠ 0xC0 → process_midi_message status data1 data2 fb s = s) := by
  refine ⟨⟨_, rfl⟩, fun h9 h8 hb hc => ?_⟩
  simp [process_midi_message, h9, h8, hb, hc]

/-- C7 witness: a pitch-bend style status byte 0xE5 has no relay effect. -/
theorem process_total_unknown_noop_witness :
    process_midi_message 0xE5 17 99 false [true, false, true, true] =
      [true, false, true, true] :=
  (process_total_unknown_noop 0xE5 17 99 false [true, false, true, true]).2
    (by decide) (by decide) (by decide) (by decide)

/-- C1: a ProgramChange (high nibble 0xC) with `data1` in 0..3 leaves exactly
relay `data1 + 1` on (slot `data1`) and the other three off, from any prior
state; with `data1` outside 0..3 it leaves all four relays off; and in both
cases the first four `set_relay` calls issued are `(1,off) (2,off) (3,off)
(4,off)`. -/
theorem programChange_exclusive_select (status data1 data2 : Nat) (fb : Bool)
    (s : RelayStates) (hs : status &&& 0xF0 = 0xC0) (hlen : s.length = 4) :
    (data1 ≤ 3 →
      (process_midi_message status data1 data2 fb s).get? data1 = some true ∧
      ∀ j, j < 4 → j ≠ data1 →
        (process_midi_message status data1 data2 fb s).get? j = some false) ∧
    (4 ≤ data1 →
      process_midi_message status data1 data2 fb s = [false, false, false, false]) ∧
    (midi_setrelay_calls status data1 data2).take 4 =
      [(1, false), (2, false), (3, false), (4, false)] := by
  obtain ⟨a, b, c, d, rfl⟩ := relayStates_cases s hlen
  refine ⟨fun h1 => ?_, fun h4 => ?_, ?_⟩
  · interval_cases data1 <;>
      · refine ⟨by simp [process_midi_message, hs, set_relay], ?_⟩
        intro j hj hne
        interval_cases j <;>
          first
          | exact absurd rfl hne
          | simp [process_midi_message, hs, set_relay]
  · have : ¬data1 ≤ 3 := by omega
    simp [process_midi_message, hs, this, set_relay]
  · by_cases h : data1 ≤ 3 <;> simp [midi_setrelay_calls, hs, h]

/-- C1 witness: ProgramChange 2 on channel 5 from a fully-on prior state. -/
theorem programChange_exclusive_select_witness :
    (process_midi_message 0xC5 2 0 false [true, true, true, true]).get? 2 =
      some true :=
  ((programChange_exclusive_select 0xC5 2 0 false [true, true, true, true]
    (by decide) (by decide)).1 (by decide)).1

/-- C2: a ControlChange (high nibble 0xB) with `data1` in 1..4 sets relay
`data1` (slot `data1 - 1`) to `data2 >= 64` and leaves the other slots
unchanged; with `data1` outside 1..4 the state array is unchanged; the
boundary lies exactly at 64 (value 63 turns the relay off, 64 turns it on). -/
theorem controlChange_threshold (status data1 data2 : Nat) (fb : Bool)
    (s : RelayStates) (hs : status &&& 0xF0 = 0xB0) (hlen : s.length = 4) :
    (1 ≤ data1 → data1 ≤ 4 →
      (process_midi_message status data1 data2 fb s).get? (data1 - 1) =
        some (decide (data2 ≥ 64)) ∧
      ∀ j, j ≠ data1 - 1 →
        (process_midi_message status data1 data2 fb s).get? j = s.get? j) ∧
    (¬(1 ≤ data1 ∧ data1 ≤ 4) → process_midi_message status data1 data2 fb s = s) ∧
    (process_midi_message status 2 63 fb s).get? 1 = some false ∧
    (process_midi_message status 2 64 fb s).get? 1 = some true := by
  obtain ⟨a, b, c, d, rfl⟩ := relayStates_cases s hlen
  refine ⟨fun hlo hhi => ?_, fun h => ?_, ?_, ?_⟩
  · have hcc : process_midi_message status data1 data2 fb [a, b, c, d] =
        set_relay (data1 : Int) (decide (data2 ≥ 64)) [a, b, c, d] := by
      simp [process_midi_message, hs, hlo, hhi]
    rw [hcc]
    constructor
    · have := set_relay_get_self (data1 : Int) (decide (data2 ≥ 64)) [a, b, c, d]
        (by omega) (by omega) rfl
      have hidx : ((data1 : Int) - 1).toNat = data1 - 1 := by omega
      rwa [hidx] at this
    · intro j hj
      refine set_relay_get_other (data1 : Int) (decide (data2 ≥ 64)) [a, b, c, d]
        (by omega) (by omega) rfl j ?_
      omega
  · simp [process_midi_message, hs, h]
  · simp [process_midi_message, hs, set_relay]
  · simp [process_midi_message, hs, set_relay]

/-- C2 witness: CC 2 with value 64 turns relay 2 on. -/
theorem controlChange_threshold_witness :
    (process_midi_message 0xB0 2 64 true [false, false, false, false]).get? 1 =
      some (decide ((64 : Nat) ≥ 64)) :=
  ((controlChange_threshold 0xB0 2 64 true [false, false, false, false]
    (by decide) (by decide)).1 (by decide) (by decide)).1

/-- Behaviour of one note-switch block: notes 60..63 drive slot
`data1 - 60` (relay `data1 - 59`), every other note leaves the state
unchanged. -/
theorem note_switch_spec (data1 : Nat) (b : Bool) (s : RelayStates)
    (hlen : s.length = 4) :
    (60 ≤ data1 → data1 ≤ 63 →
      (note_switch data1 b s).get? (data1 - 60) = some b ∧
      ∀ j, j ≠ data1 - 60 → (note_switch data1 b s).get? j = s.get? j) ∧
    (data1 ∉ ([60, 61, 62, 63] : List Nat) → note_switch data1 b s = s) := by
  constructor
  · intro hlo hhi
    have h4 : data1 = 60 ∨ data1 = 61 ∨ data1 = 62 ∨ data1 = 63 := by omega
    obtain rfl | rfl | rfl | rfl := h4
    · exact ⟨by simpa [note_switch, note_to_relay] using
          set_relay_get_self 1 b s (by decide) (by decide) hlen,
        fun j hj => by
          simpa [note_switch, note_to_relay] using
            set_relay_get_other 1 b s (by decide) (by decide) hlen j (by simpa using hj)⟩
    · exact ⟨by simpa [note_switch, note_to_relay] using
          set_relay_get_self 2 b s (by decide) (by decide) hlen,
        fun j hj => by
          simpa [note_switch, note_to_relay] using
            set_relay_get_other 2 b s (by decide) (by decide) hlen j (by simpa using hj)⟩
    · exact ⟨by simpa [note_switch, note_to_relay] using
          set_relay_get_self 3 b s (by decide) (by decide) hlen,
        fun j hj => by
          simpa [note_switch, note_to_relay] using
            set_relay_get_other 3 b s (by decide) (by decide) hlen j (by simpa using hj)⟩
    · exact ⟨by simpa [note_switch, note_to_relay] using
          set_relay_get_self 4 b s (by decide) (by decide) hlen,
        fun j hj => by
          simpa [note_switch, note_to_relay] using
            set_relay_get_other 4 b s (by decide) (by decide) hlen j (by simpa using hj)⟩
  · intro h
    simp only [List.mem_cons, List.not_mem_nil, or_false] at h
    push_neg at h
    obtain ⟨h60, h61, h62, h63⟩ := h
    simp [note_switch, note_to_relay, h60, h61, h62, h63]

/-- C3: a NoteOn (high nibble 0x9) with positive velocity turns the relay of
the fixed table 60 maps to 1, 61 to 2, 62 to 3, 63 to 4 on (slot
`data1 - 60`) and leaves other slots and unmapped notes unchanged; a NoteOn
with velocity 0 and a NoteOff (high nibble 0x8) turn the mapped relay off the
same way; the NoteOff result never consults the velocity `data2`. -/
theorem noteOn_noteOff_mapping (status data1 data2 : Nat) (fb : Bool)
    (s : RelayStates) (hlen : s.length = 4) :
    (status &&& 0xF0 = 0x90 → 0 < data2 →
      (60 ≤ data1 → data1 ≤ 63 →
        (process_midi_message status data1 data2 fb s).get? (data1 - 60) = some true ∧
        ∀ j, j ≠ data1 - 60 →
          (process_midi_message status data1 data2 fb s).get? j = s.get? j) ∧
      (data1 ∉ ([60, 61, 62, 63] : List Nat) →
        process_midi_message status data1 data2 fb s = s)) ∧
    (status &&& 0xF0 = 0x90 → data2 = 0 →
      (60 ≤ data1 → data1 ≤ 63 →
        (process_midi_message status data1 data2 fb s).get? (data1 - 60) = some false ∧
        ∀ j, j ≠ data1 - 60 →
          (process_midi_message status data1 data2 fb s).get? j = s.get? j) ∧
      (data1 ∉ ([60, 61, 62, 63] : List Nat) →
        process_midi_message status data1 data2 fb s = s)) ∧
    (status &&& 0xF0 = 0x80 →
      (∀ d2, process_midi_message status data1 d2 fb s =
        process_midi_message status data1 data2 fb s) ∧
      (60 ≤ data1 → data1 ≤ 63 →
        (process_midi_message status data1 data2 fb s).get? (data1 - 60) = some false ∧
        ∀ j, j ≠ data1 - 60 →
          (process_midi_message status data1 data2 fb s).get? j = s.get? j) ∧
      (data1 ∉ ([60, 61, 62, 63] : List Nat) →
        process_midi_message status data1 data2 fb s = s)) := by
  refine ⟨fun hs hv => ?_, fun hs hv => ?_, fun hs => ?_⟩
  · have hp : process_midi_message status data1 data2 fb s = note_switch data1 true s := by
      simp [process_midi_message, hs, hv]
    rw [hp]
    exact note_switch_spec data1 true s hlen
  · have hp : process_midi_message status data1 data2 fb s = note_switch data1 false s := by
      simp [process_midi_message, hs, hv]
    rw [hp]
    exact note_switch_spec data1 false s hlen
  · have hp : ∀ d2, process_midi_message status data1 d2 fb s =
        note_switch data1 false s := by
      intro d2
      simp [process_midi_message, hs]
    refine ⟨fun d2 => by rw [hp d2, hp data2], ?_, ?_⟩
    · rw [hp data2]
      exact (note_switch_spec data1 false s hlen).1
    · rw [hp data2]
      exact (note_switch_spec data1 false s hlen).2

/-- C3 witness: NoteOn 60 velocity 100 on channel 1 turns relay 1 on. -/
theorem noteOn_noteOff_mapping_witness :
    (process_midi_message 0x91 60 100 false [false, false, false, false]).get?
      (60 - 60) = some true :=
  (((noteOn_noteOff_mapping 0x91 60 100 false [false, false, false, false]
    rfl).1 (by decide) (by decide)).1 (by decide) (by decide)).1

/-- One 4-byte USB-MIDI packet as filled in by `tud_midi_packet_read`
(src/main.c line 353): byte 0 is the USB-MIDI framing byte (discarded by the
loop), bytes 1-3 are the MIDI message. -/
structure UsbPacket where
  b0 : Nat
  b1 : Nat
  b2 : Nat
  b3 : Nat

/-- One result of `ble_midi_server_stream_read` (src/main.c line 363): the
byte count actually read (0 when nothing was pending) and the buffer
contents. -/
structure BleFrame where
  nread : Nat
  b0 : Nat
  b1 : Nat
  b2 : Nat

/-- The external transport conditions observed by one iteration of the main
loop: whether `tud_midi_mounted()` holds and what `tud_midi_packet_read`
yields (`none` when it returns false), whether
`ble_midi_server_is_connected()` holds and what
`ble_midi_server_stream_read` yields. -/
structure TransportInputs where
  usb_mounted : Bool
  usb_packet : Option UsbPacket
  ble_connected : Bool
  ble_frame : BleFrame

/-- A dispatched MIDI message: the four arguments of `process_midi_message`. -/
structure MidiMsg where
  status : Nat
  data1 : Nat
  data2 : Nat
  from_bluetooth : Bool

/-- The USB branch of the main loop (src/main.c lines 352-357): when the USB
MIDI interface is mounted and a packet was read, dispatch bytes 1-3 with the
from-Bluetooth flag false. -/
def usb_poll (t : TransportInputs) : Option MidiMsg :=
  if t.usb_mounted then
    match t.usb_packet with
    | some p => some ⟨p.b1, p.b2, p.b3, false⟩
    | none => none
  else none

/-- The BLE branch of the main loop (src/main.c lines 360-372): when
connected and `nread > 0` (and the redundant source check `nread >= 1`),
take `ble_packet[0]` as status and zero-pad the missing trailing bytes:
`data1` is read only when `nread >= 2`, `data2` only when `nread >= 3`. -/
def ble_poll (t : TransportInputs) : Option MidiMsg :=
  if t.ble_connected then
    if t.ble_frame.nread > 0 then
      if t.ble_frame.nread ≥ 1 then
        some ⟨t.ble_frame.b0,
          if t.ble_frame.nread ≥ 2 then t.ble_frame.b1 else 0,
          if t.ble_frame.nread ≥ 3 then t.ble_frame.b2 else 0,
          true⟩
      else none
    else none
  else none

/-- Apply one dispatched message to the relay state. -/
def apply_msg (s : RelayStates) (m : MidiMsg) : RelayStates :=
  process_midi_message m.status m.data1 m.data2 m.from_bluetooth s

/-- One iteration of the main loop (src/main.c lines 347-379): the USB branch
runs first and its message is applied to completion, then the BLE branch;
`tud_task()`, `cyw43_arch_poll()` and `sleep_ms(1)` are external housekeeping
calls with no relay effect.  Returns the new state together with the trace of
dispatched messages in order. -/
def loop_iter (t : TransportInputs) (s : RelayStates) : RelayStates × List MidiMsg :=
  let s1 := match usb_poll t with
    | some m => apply_msg s m
    | none => s
  let s2 := match ble_poll t with
    | some m => apply_msg s1 m
    | none => s1
  (s2, (usb_poll t).toList ++ (ble_poll t).toList)

/-- A message dispatched by the USB branch is tagged as not from Bluetooth. -/
theorem usb_poll_not_bt (t : TransportInputs) (m : MidiMsg)
    (h : usb_poll t = some m) : m.from_bluetooth = false := by
  unfold usb_poll at h
  split at h
  · split at h
    · cases h
      rfl
    · cases h
  · cases h

/-- A message dispatched by the BLE branch is tagged as from Bluetooth. -/
theorem ble_poll_bt (t : TransportInputs) (m : MidiMsg)
    (h : ble_poll t = some m) : m.from_bluetooth = true := by
  unfold ble_poll at h
  split at h
  · split at h
    · split at h
      · cases h
        rfl
      · cases h
    · cases h
  · cases h

/-- C8: the BLE branch, for a frame of `n` payload bytes with `n` in 1..3,
builds a 3-byte tuple by zero-padding the missing trailing bytes and
dispatches it through `process_midi_message`; a read returning zero bytes
causes no dispatch. -/
theorem ble_zero_padding (usbm : Bool) (up : Option UsbPacket)
    (n b0 b1 b2 : Nat) (s : RelayStates) (hn3 : n ≤ 3) :
    (1 ≤ n →
      ble_poll ⟨usbm, up, true, ⟨n, b0, b1, b2⟩⟩ =
        some ⟨b0, if 2 ≤ n then b1 else 0, if 3 ≤ n then b2 else 0, true⟩ ∧
      (loop_iter ⟨false, none, true, ⟨n, b0, b1, b2⟩⟩ s).1 =
        process_midi_message b0 (if 2 ≤ n then b1 else 0)
          (if 3 ≤ n then b2 else 0) true s) ∧
    (n = 0 →
      ble_poll ⟨usbm, up, true, ⟨n, b0, b1, b2⟩⟩ = none ∧
      (loop_iter ⟨false, none, true, ⟨n, b0, b1, b2⟩⟩ s).1 = s) := by
  constructor
  · intro h1
    have h0 : 0 < n := h1
    constructor
    · simp [ble_poll, h0, h1]
    · simp [loop_iter, usb_poll, ble_poll, apply_msg, h0, h1]
  · intro h0
    subst h0
    constructor
    · simp [ble_poll]
    · simp [loop_iter, usb_poll, ble_poll]

/-- C8 witness: a 2-byte ProgramChange frame is padded with `data2 = 0`. -/
theorem ble_zero_padding_witness :
    ble_poll ⟨false, none, true, ⟨2, 0xC0, 1, 7⟩⟩ =
      some ⟨0xC0, if 2 ≤ 2 then 1 else 0, if 3 ≤ 2 then 7 else 0, true⟩ :=
  ((ble_zero_padding false none 2 0xC0 1 7 [false, false, false, false]
    (by decide)).1 (by decide)).1

/-- C9: one loop iteration dispatches at most one message from the USB
transport and at most one from the BLE transport; when both are pending the
trace is exactly one USB message followed by one BLE message; and the final
state is the left fold of `process_midi_message` over the trace — each
message's relay effects complete before the next message is handled. -/
theorem loop_iter_fair (t : TransportInputs) (s : RelayStates) :
    ((loop_iter t s).2.filter (fun m => !m.from_bluetooth)).length ≤ 1 ∧
    ((loop_iter t s).2.filter (fun m => m.from_bluetooth)).length ≤ 1 ∧
    (∀ mu mb, usb_poll t = some mu → ble_poll t = some mb →
      (loop_iter t s).2 = [mu, mb] ∧
      mu.from_bluetooth = false ∧ mb.from_bluetooth = true) ∧
    (loop_iter t s).1 = (loop_iter t s).2.foldl apply_msg s := by
  cases husb : usb_poll t with
  | none =>
    cases hble : ble_poll t with
    | none => simp [loop_iter, husb, hble]
    | some mb =>
      have hbt := ble_poll_bt t mb hble
      refine ⟨?_, ?_, ?_, ?_⟩ <;> simp [loop_iter, husb, hble, hbt]
  | some mu =>
    have hut := usb_poll_not_bt t mu husb
    cases hble : ble_poll t with
    | none =>
      refine ⟨?_, ?_, ?_, ?_⟩ <;> simp [loop_iter, husb, hble, hut]
    | some mb =>
      have hbt := ble_poll_bt t mb hble
      refine ⟨?_, ?_, ?_, ?_⟩ <;> simp [loop_iter, husb, hble, hut, hbt]

/-- C9 witness: one USB NoteOn and one BLE NoteOff pending in the same
iteration give a two-message trace, one from each transport. -/
theorem loop_iter_fair_witness :
    (loop_iter ⟨true, some ⟨0x09, 0x90, 60, 100⟩, true, ⟨3, 0x80, 61, 0⟩⟩
      [false, false, false, false]).2 =
      [⟨0x90, 60, 100, false⟩, ⟨0x80, 61, 0, true⟩] :=
  ((loop_iter_fair ⟨true, some ⟨0x09, 0x90, 60, 100⟩, true, ⟨3, 0x80, 61, 0⟩⟩
    [false, false, false, false]).2.2.1 ⟨0x90, 60, 100, false⟩ ⟨0x80, 61, 0, true⟩
    rfl rfl).1

end MitimidiRelay
